import Mathlib

/-
Verification development for the VittaSaathi / MoneyView WhatsApp relay
(repository Lokii1211/vittasaathi).

The repository contains three near-duplicate bot scripts:
  - src/unnamed/part_003 — MoneyView bot v3.1 (two-endpoint fallback chain,
    HTTP /send endpoint, extractPhone canonicalization);
  - src/unnamed/part_004 — VittaSaathi bot v3.0 (single backend endpoint,
    session-conflict and logged-out handling in connection.update);
  - src/whatsapp-bot/index.js — VittaSaathi bot v2 (bounded reconnect
    counter, text-extraction precedence with audio placeholder).

JavaScript strings are modelled as Lean String; JS string truthiness
(empty string and undefined are falsy) is modelled by comparison with "".
Optional / possibly-undefined fields are modelled as Option String, with
jsStr mapping undefined to "".
-/

/-- jsStr maps a possibly-undefined JS string field to the string used in a
truthiness test or concatenation: undefined behaves like the empty string. -/
def jsStr : Option String → String
  | none => ""
  | some s => s

/-- jsOr models the JS expression a || b on strings: a if a is truthy
(non-empty), else b. -/
def jsOr (a b : String) : String := if a = "" then b else a

/-- digitsOf models the JS expression s.replace(/[^0-9]/g, ""): keep only
the decimal digit characters of s. -/
def digitsOf (s : String) : String := ⟨s.data.filter (fun c => c.isDigit)⟩

/-- removeSuffix models the JS expression s.replace(/sfx$/, ""): if s ends
with sfx, drop that ending, else return s unchanged. -/
def removeSuffix (s sfx : String) : String :=
  if sfx.data <:+ s.data then ⟨s.data.take (s.data.length - sfx.data.length)⟩ else s

/-- extractPhone embeds the function extractPhone of src/unnamed/part_003
(lines 83-106): return null for a falsy jid; otherwise strip an
"@s.whatsapp.net" and then an "@lid" ending, keep only digits, and put the
default country code "91" in front when exactly 10 digits remain.
(The length > 15 branch of the source only logs and is omitted.) -/
def extractPhone (jid : String) : Option String :=
  if jid = "" then none
  else
    let stripped := removeSuffix (removeSuffix jid "@s.whatsapp.net") "@lid"
    let digits := digitsOf stripped
    some (if digits.length = 10 then "91" ++ digits else digits)

/-- CallResult is the observable outcome of one processor-endpoint HTTP call:
failure (axios threw: timeout, transport error, or non-2xx status), or a
2xx response whose data.reply field is the given optional string. -/
inductive CallResult where
  | failure
  | response (reply : Option String)
deriving DecidableEq

/-- replyOf gives the winning reply of a call, if any: the source guard
`if (response.data && response.data.reply)` accepts exactly a response
carrying a truthy (non-empty) reply string. -/
def replyOf : CallResult → Option String
  | .failure => none
  | .response none => none
  | .response (some s) => if s = "" then none else some s

/-- processMessage embeds the function processMessage of
src/unnamed/part_003 (lines 111-158) as a function of the outcomes of its
two endpoint calls (n8n webhook first, then the Railway MoneyView endpoint).
The second component counts how many endpoints were called. A failed or
replyless first call falls through to the second; if neither call yields a
truthy reply the function returns null (the apology string in the outer
catch is unreachable for these outcomes, since every endpoint failure is
caught by an inner catch). -/
def processMessage (r1 r2 : CallResult) : Option String × Nat :=
  match replyOf r1 with
  | some reply => (some reply, 1)
  | none =>
      match replyOf r2 with
      | some reply => (some reply, 2)
      | none => (none, 2)

/-- processMessageV30 embeds the function processMessage of
src/unnamed/part_004 (lines 27-53): one backend call; a missing reply or a
caught backend error both return null (the source comment reads
"Fallback: do not reply if backend fails"). -/
def processMessageV30 (r : CallResult) : Option String := replyOf r

/-- Modelled from the spec: routeChain is the Fallback Router of spec
section 4.4 as an ordered-list iteration over the configured endpoint
outcomes — the first call with a well-formed non-empty reply wins and
terminates the iteration. Used to state that the hardcoded two-endpoint
chain of processMessage refines this policy. The second component counts
the endpoints called. -/
def routeChain : List CallResult → Option String × Nat
  | [] => (none, 0)
  | r :: rs =>
      match replyOf r with
      | some reply => (some reply, 1)
      | none =>
          let rest := routeChain rs
          (rest.1, rest.2 + 1)

/-- MessageContent models the msg.message payload shapes the handlers
inspect: conversation is the direct text body, extendedText the value of
extendedTextMessage?.text, imageMessage / videoMessage are none when the
media object is absent and some caption? when present (caption? none when
the object has no caption), audioMessage records presence of an audio
payload. -/
structure MessageContent where
  conversation : Option String
  extendedText : Option String
  imageMessage : Option (Option String)
  videoMessage : Option (Option String)
  audioMessage : Bool
deriving DecidableEq

/-- capOf models the JS optional chain m?.caption used in a truthy
position: the caption when the media object is present and carries one,
otherwise falsy (empty). -/
def capOf : Option (Option String) → String
  | some (some s) => s
  | _ => ""

/-- extractTextV31 embeds the content extraction of src/unnamed/part_003
(lines 239-243): conversation || extendedTextMessage?.text ||
imageMessage?.caption || videoMessage?.caption || "". No audio placeholder
exists in this variant. -/
def extractTextV31 (m : MessageContent) : String :=
  jsOr (jsStr m.conversation)
    (jsOr (jsStr m.extendedText)
      (jsOr (capOf m.imageMessage) (jsOr (capOf m.videoMessage) "")))

/-- extractTextV2 embeds the content extraction of
src/whatsapp-bot/index.js (lines 159-168): an if/else-if chain over
conversation, extendedTextMessage?.text, imageMessage?.caption (whose
fallback caption || "[Image]" is dead code, since the branch guard already
requires a truthy caption), and a "[Voice message]" placeholder for an
audio payload. No video-caption case exists in this variant. -/
def extractTextV2 (m : MessageContent) : String :=
  if jsStr m.conversation ≠ "" then jsStr m.conversation
  else if jsStr m.extendedText ≠ "" then jsStr m.extendedText
  else if capOf m.imageMessage ≠ "" then jsOr (capOf m.imageMessage) "[Image]"
  else if m.audioMessage then "[Voice message]"
  else ""

/-- MsgKey models msg.key: the fromMe flag and the remote JID string. -/
structure MsgKey where
  fromMe : Bool
  remoteJid : String
deriving DecidableEq

/-- RawMsg models one element of the messages array of a
messages.upsert event: the key and the optional message payload. -/
structure RawMsg where
  key : MsgKey
  message : Option MessageContent
deriving DecidableEq

/-- UpsertOutcome records the externally observable effect of handling one
inbound message: how many processor endpoints were called, and the reply
send, if any, as the pair of target JID and text. -/
structure UpsertOutcome where
  endpointCalls : Nat
  sent : Option (String × String)
deriving DecidableEq

/-- droppedByPolicy decides the four drop rules of the messages.upsert
handler of src/unnamed/part_003 (lines 232-236), in source order: no
payload, from self, status broadcast channel, group JID (ends with
"@g.us"). -/
def droppedByPolicy (msg : RawMsg) : Bool :=
  msg.message.isNone || msg.key.fromMe ||
    (msg.key.remoteJid == "status@broadcast") ||
    decide ("@g.us".data <:+ msg.key.remoteJid.data)

/-- msgText is the text the part_003 handler would extract from a message,
empty when the payload is absent. -/
def msgText (msg : RawMsg) : String :=
  match msg.message with
  | none => ""
  | some m => extractTextV31 m

/-- handleMsg embeds the per-message body of the messages.upsert handler of
src/unnamed/part_003 (lines 230-276), as a function of the message and the
outcomes of the two fallback endpoint calls: apply the drop rules in
order, drop on empty extracted text, otherwise run processMessage and send
the reply to the sender JID only when a reply came back (the source guard
is `if (reply)`). -/
def handleMsg (msg : RawMsg) (r1 r2 : CallResult) : UpsertOutcome :=
  match msg.message with
  | none => ⟨0, none⟩
  | some m =>
    if msg.key.fromMe then ⟨0, none⟩
    else if msg.key.remoteJid = "status@broadcast" then ⟨0, none⟩
    else if "@g.us".data <:+ msg.key.remoteJid.data then ⟨0, none⟩
    else if extractTextV31 m = "" then ⟨0, none⟩
    else
      match processMessage r1 r2 with
      | (some reply, n) => ⟨n, some (msg.key.remoteJid, reply)⟩
      | (none, n) => ⟨n, none⟩

/-- normalizePhone embeds the inline phone formatting of the POST /send
handler of src/unnamed/part_003 (lines 55-58): keep only digits, and put
"91" in front only when the result does not already start with "91" and
has exactly 10 digits. -/
def normalizePhone (p : String) : String :=
  let clean := digitsOf p
  if ¬ ("91".data <+: clean.data) ∧ clean.length = 10 then "91" ++ clean else clean

/-- SendResponse is the observable outcome of the POST /send handler:
a 400 missing-field error, a 503 not-connected error, or a transport send
to the given JID with the given text (the 200 success path). -/
inductive SendResponse where
  | badRequest
  | unavailable
  | sent (jid : String) (text : String)
deriving DecidableEq

/-- sendHandler embeds the POST /send handler of src/unnamed/part_003
(lines 42-70): reject with 400 when phone or message is falsy, with 503
when the bot is not connected or the socket is absent, else send to
cleanPhone ++ "@s.whatsapp.net" where cleanPhone = normalizePhone phone. -/
def sendHandler (phone message : Option String) (connected sockPresent : Bool) :
    SendResponse :=
  if jsStr phone = "" ∨ jsStr message = "" then .badRequest
  else if ¬ connected ∨ ¬ sockPresent then .unavailable
  else .sent (normalizePhone (jsStr phone) ++ "@s.whatsapp.net") (jsStr message)

/-- loggedOutCode is DisconnectReason.loggedOut of the Baileys library
(numeric value 401), the status code the close handlers compare against. -/
def loggedOutCode : Nat := 401

/-- CloseActionV2 records the effect of one connection close event in
src/whatsapp-bot/index.js: the new reconnect counter, the delay of a
scheduled startBot call if one was scheduled, and whether the process
exited. -/
structure CloseActionV2 where
  attempts : Nat
  delayMs : Option Nat
  exited : Bool
deriving DecidableEq

/-- MAX_RECONNECT_V2 is the constant MAX_RECONNECT = 5 of
src/whatsapp-bot/index.js. -/
def MAX_RECONNECT_V2 : Nat := 5

/-- connectionCloseV2 embeds the connection === "close" branch of the
connection.update handler of src/whatsapp-bot/index.js (lines 110-125):
while the status code is not loggedOut and the counter is below
MAX_RECONNECT, increment the counter and schedule startBot after a fixed
3000 ms; on loggedOut, exit the process; otherwise do nothing. -/
def connectionCloseV2 (reconnectAttempts : Nat) (statusCode : Option Nat) :
    CloseActionV2 :=
  if statusCode ≠ some loggedOutCode ∧ reconnectAttempts < MAX_RECONNECT_V2 then
    ⟨reconnectAttempts + 1, some 3000, false⟩
  else if statusCode = some loggedOutCode then
    ⟨reconnectAttempts, none, true⟩
  else
    ⟨reconnectAttempts, none, false⟩

/-- connectionOpenAttempts is the reconnect counter value assigned by the
connection === "open" branch of the v2 and v3.0 handlers:
reconnectAttempts = 0. -/
def connectionOpenAttempts : Nat := 0

/-- CloseActionV30 records the effect of one connection close event in
src/unnamed/part_004: whether the auth folder was removed, the delay of a
scheduled startBot call if one was scheduled, and the new reconnect
counter. -/
structure CloseActionV30 where
  clearedAuth : Bool
  scheduledDelayMs : Option Nat
  attempts : Nat
deriving DecidableEq

/-- MAX_RECONNECT_V30 is the constant MAX_RECONNECT = 3 of
src/unnamed/part_004. -/
def MAX_RECONNECT_V30 : Nat := 3

/-- connectionCloseV30 embeds the connection === "close" branch of the
connection.update handler of src/unnamed/part_004 (lines 101-128): status
440 (conflict) clears the auth folder, resets the counter and schedules
startBot after 3000 ms; loggedOut clears the auth folder and schedules
startBot after 2000 ms; any other code below the retry bound increments
the counter and schedules startBot after 5000 ms; otherwise nothing. -/
def connectionCloseV30 (reconnectAttempts : Nat) (statusCode : Option Nat) :
    CloseActionV30 :=
  if statusCode = some 440 then ⟨true, some 3000, 0⟩
  else if statusCode = some loggedOutCode then ⟨true, some 2000, reconnectAttempts⟩
  else if (statusCode ≠ some loggedOutCode ∧ statusCode ≠ some 440) ∧
      reconnectAttempts < MAX_RECONNECT_V30 then
    ⟨false, some 5000, reconnectAttempts + 1⟩
  else ⟨false, none, reconnectAttempts⟩

/-- connectionCloseV31 embeds the connection === "close" branch of the
connection.update handler of src/unnamed/part_003 (lines 206-213): when
the status code is not loggedOut, schedule startBot after a fixed 5000 ms;
no reconnect counter exists in this variant. -/
def connectionCloseV31 (statusCode : Option Nat) : Option Nat :=
  if statusCode ≠ some loggedOutCode then some 5000 else none

/-- replyOf only produces non-empty winning replies: the source guard
rejects a falsy data.reply. -/
theorem replyOf_ne_empty : ∀ r s, replyOf r = some s → s ≠ ""
  | .failure, _, h => by simp [replyOf] at h
  | .response none, _, h => by simp [replyOf] at h
  | .response (some t), s, h => by
      by_cases ht : t = ""
      · simp [replyOf, ht] at h
      · simp only [replyOf, if_neg ht, Option.some.injEq] at h
        exact h ▸ ht

/-- Any reply returned by the two-endpoint chain is non-empty. -/
theorem processMessage_reply_ne_empty (r1 r2 : CallResult) (s : String)
    (h : (processMessage r1 r2).1 = some s) : s ≠ "" := by
  unfold processMessage at h
  cases h1 : replyOf r1 with
  | some w =>
      rw [h1] at h
      simp at h
      exact h ▸ replyOf_ne_empty r1 w h1
  | none =>
      rw [h1] at h
      cases h2 : replyOf r2 with
      | some w =>
          rw [h2] at h
          simp at h
          exact h ▸ replyOf_ne_empty r2 w h2
      | none =>
          rw [h2] at h
          simp at h

/-- C1: the fallback router calls the configured endpoints one at a time in
priority order; the first call with a well-formed non-empty reply wins,
terminates the iteration, and no later endpoint is called; a transport
failure, a missing reply and an empty reply all advance to the next
endpoint. The two-endpoint chain of processMessage (part_003) agrees with
the ordered-list iteration routeChain, and on any chain where the first M
endpoints fail and endpoint M+1 wins, exactly M+1 endpoints are called and
the winning reply is returned. -/
theorem C1_fallback_priority_first_win :
    (∀ r1 r2, processMessage r1 r2 = routeChain [r1, r2]) ∧
    (∀ (failed : List CallResult) (e : CallResult) (rest : List CallResult) (w : String),
        (∀ r ∈ failed, replyOf r = none) → replyOf e = some w →
        routeChain (failed ++ e :: rest) = (some w, failed.length + 1)) ∧
    (replyOf CallResult.failure = none ∧ replyOf (CallResult.response none) = none ∧
      replyOf (CallResult.response (some "")) = none) := by
  refine ⟨?_, ?_, by decide⟩
  · intro r1 r2
    cases h1 : replyOf r1 <;> cases h2 : replyOf r2 <;>
      simp [processMessage, routeChain, h1, h2]
  · intro failed e rest w hfail hwin
    induction failed with
    | nil => simp [routeChain, hwin]
    | cons r rs ih =>
        have hr : replyOf r = none := hfail r (by simp)
        have hrs : ∀ x ∈ rs, replyOf x = none := fun x hx => hfail x (by simp [hx])
        simp [routeChain, hr, ih hrs]

/-- Witness for C1 at concrete chains: a replyless first endpoint with a
winning second endpoint, and a three-endpoint chain whose second endpoint
wins after one failure. -/
theorem C1_witness :
    processMessage (CallResult.response none) (CallResult.response (some "ok")) =
      routeChain [CallResult.response none, CallResult.response (some "ok")] ∧
    routeChain [CallResult.failure, CallResult.response (some "hi"), CallResult.failure] =
      (some "hi", 2) := by
  constructor
  · exact C1_fallback_priority_first_win.1 _ _
  · have h := C1_fallback_priority_first_win.2.1 [CallResult.failure]
      (CallResult.response (some "hi")) [CallResult.failure] "hi"
      (by decide) (by decide)
    simpa using h

/-- C2 counterexample: when both configured endpoints fail, processMessage
of part_003 returns null, not the fixed apology string — the caller then
sends nothing, so the user gets silence. -/
theorem C2_counterexample :
    (processMessage CallResult.failure CallResult.failure).1 = none := rfl

/-- C2 amended: when every endpoint fails, the router of part_003 returns
null after calling both endpoints (and the single-endpoint router of
part_004 likewise returns null), so no reply is produced; the apology
string in the outer catch of part_003 is unreachable for endpoint
failures. -/
theorem C2_all_fail_returns_null (r1 r2 : CallResult)
    (h1 : replyOf r1 = none) (h2 : replyOf r2 = none) :
    processMessage r1 r2 = (none, 2) ∧ processMessageV30 r1 = none := by
  simp [processMessage, processMessageV30, h1, h2]

/-- Witness for C2 amended at a concrete pair of failing endpoints. -/
theorem C2_witness :
    processMessage CallResult.failure (CallResult.response (some "")) = (none, 2) ∧
    processMessageV30 CallResult.failure = none :=
  C2_all_fail_returns_null CallResult.failure (CallResult.response (some ""))
    (by decide) (by decide)

/-- C3 counterexample: an inbound text "hi" from a direct chat passes every
drop rule and yields text, yet when both endpoints fail the part_003
handler sends no reply at all — zero replies, not exactly one. -/
theorem C3_counterexample :
    droppedByPolicy ⟨⟨false, "911234567890@s.whatsapp.net"⟩,
        some ⟨some "hi", none, none, none, false⟩⟩ = false ∧
    msgText ⟨⟨false, "911234567890@s.whatsapp.net"⟩,
        some ⟨some "hi", none, none, none, false⟩⟩ = "hi" ∧
    handleMsg ⟨⟨false, "911234567890@s.whatsapp.net"⟩,
        some ⟨some "hi", none, none, none, false⟩⟩ CallResult.failure
      CallResult.failure = ⟨2, none⟩ := by decide

/-- C3 amended: for every non-dropped inbound event that yields text, at
most one reply is sent; a reply is sent exactly when the fallback router
produced one, and any reply sent is non-empty and addressed to the
sender JID. -/
theorem C3_at_most_one_reply (msg : RawMsg) (r1 r2 : CallResult)
    (hd : droppedByPolicy msg = false) (ht : msgText msg ≠ "") :
    ((handleMsg msg r1 r2).sent.isSome ↔ ((processMessage r1 r2).1).isSome) ∧
    (∀ jid t, (handleMsg msg r1 r2).sent = some (jid, t) →
      jid = msg.key.remoteJid ∧ t ≠ "") := by
  cases hm : msg.message with
  | none => simp [msgText, hm] at ht
  | some m =>
    unfold droppedByPolicy at hd
    rw [hm] at hd
    simp at hd
    obtain ⟨⟨hfm, hbc⟩, hg⟩ := hd
    have htext : extractTextV31 m ≠ "" := by simpa [msgText, hm] using ht
    unfold handleMsg
    rw [hm]
    rcases hpm : processMessage r1 r2 with ⟨orep, n⟩
    cases orep with
    | none => simp [hfm, hbc, hg, htext, hpm]
    | some s =>
        have hs : s ≠ "" := processMessage_reply_ne_empty r1 r2 s (by rw [hpm])
        simp [hfm, hbc, hg, htext, hpm, hs]

/-- Witness for C3 amended at a concrete non-dropped message with a winning
first endpoint. -/
theorem C3_witness :
    ((handleMsg ⟨⟨false, "15551234567@s.whatsapp.net"⟩,
          some ⟨some "hello", none, none, none, false⟩⟩
        (CallResult.response (some "yo")) CallResult.failure).sent.isSome ↔
      ((processMessage (CallResult.response (some "yo")) CallResult.failure).1).isSome) ∧
    (∀ jid t,
      (handleMsg ⟨⟨false, "15551234567@s.whatsapp.net"⟩,
            some ⟨some "hello", none, none, none, false⟩⟩
          (CallResult.response (some "yo")) CallResult.failure).sent = some (jid, t) →
        jid = (⟨⟨false, "15551234567@s.whatsapp.net"⟩,
            some ⟨some "hello", none, none, none, false⟩⟩ : RawMsg).key.remoteJid ∧
        t ≠ "") :=
  C3_at_most_one_reply _ _ _ (by decide) (by decide)

/-- C4: every inbound event dropped by policy — no payload, from self,
broadcast channel, or group JID — produces no endpoint call and no reply
in the part_003 handler. -/
theorem C4_dropped_no_call_no_reply (msg : RawMsg) (r1 r2 : CallResult)
    (h : droppedByPolicy msg = true) : handleMsg msg r1 r2 = ⟨0, none⟩ := by
  unfold handleMsg
  cases hm : msg.message with
  | none => rfl
  | some m =>
    by_cases hf : msg.key.fromMe
    · simp [hf]
    · by_cases hb : msg.key.remoteJid = "status@broadcast"
      · simp [hf, hb]
      · by_cases hg : "@g.us".data <:+ msg.key.remoteJid.data
        · simp [hf, hb, hg]
        · exfalso
          unfold droppedByPolicy at h
          rw [hm] at h
          simp [hf, hb, hg] at h

/-- Witness for C4 at a concrete self-originated message, a broadcast
message, and a group message. -/
theorem C4_witness :
    handleMsg ⟨⟨true, "15551234567@s.whatsapp.net"⟩,
        some ⟨some "hi", none, none, none, false⟩⟩ (CallResult.response (some "r"))
      CallResult.failure = ⟨0, none⟩ ∧
    handleMsg ⟨⟨false, "status@broadcast"⟩, some ⟨some "hi", none, none, none, false⟩⟩
      (CallResult.response (some "r")) CallResult.failure = ⟨0, none⟩ ∧
    handleMsg ⟨⟨false, "12345-67890@g.us"⟩, some ⟨some "hi", none, none, none, false⟩⟩
      (CallResult.response (some "r")) CallResult.failure = ⟨0, none⟩ :=
  ⟨C4_dropped_no_call_no_reply _ _ _ (by decide),
   C4_dropped_no_call_no_reply _ _ _ (by decide),
   C4_dropped_no_call_no_reply _ _ _ (by decide)⟩

/-- normalizePhone adds the country code when the cleaned number has
exactly 10 digits and does not already start with "91". -/
theorem normalizePhone_eq_not91 (p : String) (h10 : (digitsOf p).length = 10)
    (hnp : ¬ ("91".data <+: (digitsOf p).data)) :
    normalizePhone p = "91" ++ digitsOf p := by
  show (if ¬ ("91".data <+: (digitsOf p).data) ∧ (digitsOf p).length = 10 then
      "91" ++ digitsOf p else digitsOf p) = "91" ++ digitsOf p
  rw [if_pos ⟨hnp, h10⟩]

/-- normalizePhone leaves a number starting with "91" unchanged. -/
theorem normalizePhone_eq_91 (p : String) (hpre : "91".data <+: (digitsOf p).data) :
    normalizePhone p = digitsOf p := by
  show (if ¬ ("91".data <+: (digitsOf p).data) ∧ (digitsOf p).length = 10 then
      "91" ++ digitsOf p else digitsOf p) = digitsOf p
  rw [if_neg]
  rintro ⟨hn, _⟩
  exact hn hpre

/-- C5 counterexample: "9198989898" is a bare 10-digit number (all digits,
length 10), yet the POST /send handler of part_003 dispatches it
unchanged — the "91" country-code default is NOT applied, because the
number already happens to start with the characters "91". -/
theorem C5_counterexample :
    digitsOf "9198989898" = "9198989898" ∧
    ("9198989898" : String).length = 10 ∧
    sendHandler (some "9198989898") (some "hi") true true =
      SendResponse.sent "9198989898@s.whatsapp.net" "hi" ∧
    sendHandler (some "9198989898") (some "hi") true true ≠
      SendResponse.sent "919198989898@s.whatsapp.net" "hi" := by decide

/-- C5 amended: a POST /send recipient whose digit-stripped number has
exactly 10 digits is prefixed with the country code "91" before dispatch
only when it does not already start with "91"; a 10-digit number starting
with "91" is dispatched as-is. -/
theorem C5_amended_prefix_rule :
    (∀ p m, m ≠ "" → (digitsOf p).length = 10 →
      ¬ ("91".data <+: (digitsOf p).data) →
      sendHandler (some p) (some m) true true =
        SendResponse.sent ("91" ++ digitsOf p ++ "@s.whatsapp.net") m) ∧
    (∀ p m, m ≠ "" → (digitsOf p).length = 10 →
      ("91".data <+: (digitsOf p).data) →
      sendHandler (some p) (some m) true true =
        SendResponse.sent (digitsOf p ++ "@s.whatsapp.net") m) := by
  constructor
  · intro p m hm h10 hnp
    have hp : p ≠ "" := by
      intro he
      rw [he] at h10
      exact absurd h10 (by decide)
    have hA : ¬ (jsStr (some p) = "" ∨ jsStr (some m) = "") := by
      simp [jsStr, hp, hm]
    have hB : ¬ (¬ (true : Bool) ∨ ¬ (true : Bool)) := by simp
    unfold sendHandler
    rw [if_neg hA, if_neg hB]
    simp only [jsStr]
    rw [normalizePhone_eq_not91 p h10 hnp, String.append_assoc]
  · intro p m hm h10 hpre
    have hp : p ≠ "" := by
      intro he
      rw [he] at h10
      exact absurd h10 (by decide)
    have hA : ¬ (jsStr (some p) = "" ∨ jsStr (some m) = "") := by
      simp [jsStr, hp, hm]
    have hB : ¬ (¬ (true : Bool) ∨ ¬ (true : Bool)) := by simp
    unfold sendHandler
    rw [if_neg hA, if_neg hB]
    simp only [jsStr]
    rw [normalizePhone_eq_91 p hpre]

/-- Witness for C5 amended: a 10-digit number not starting with "91" gets
the country code; a 10-digit number starting with "91" does not. -/
theorem C5_witness :
    sendHandler (some "9876543210") (some "hello") true true =
      SendResponse.sent ("91" ++ digitsOf "9876543210" ++ "@s.whatsapp.net") "hello" ∧
    sendHandler (some "9191919191") (some "hello") true true =
      SendResponse.sent (digitsOf "9191919191" ++ "@s.whatsapp.net") "hello" :=
  ⟨C5_amended_prefix_rule.1 "9876543210" "hello" (by decide) (by decide) (by decide),
   C5_amended_prefix_rule.2 "9191919191" "hello" (by decide) (by decide) (by decide)⟩

/-- C6: a POST /send with non-empty phone and message that arrives while
the session is not connected returns the 503 service-unavailable error and
never reaches the transport send. -/
theorem C6_not_open_unavailable (p m : String) (hp : p ≠ "") (hm : m ≠ "")
    (sockPresent : Bool) :
    sendHandler (some p) (some m) false sockPresent = SendResponse.unavailable := by
  have hA : ¬ (jsStr (some p) = "" ∨ jsStr (some m) = "") := by
    simp [jsStr, hp, hm]
  unfold sendHandler
  rw [if_neg hA, if_pos (by simp)]

/-- Witness for C6 at a concrete request while disconnected. -/
theorem C6_witness :
    sendHandler (some "9876543210") (some "hello") false true =
      SendResponse.unavailable :=
  C6_not_open_unavailable "9876543210" "hello" (by decide) (by decide) true

/-- C7 counterexample: the reconnect delays of the v2 close handler cannot
follow the exponential sequence min(base * 2 ^ attempt, cap) for any base
and cap that realize at least one doubling step (base * 2 ≤ cap), because
the scheduled delay is the same constant 3000 ms at attempt 0 and at
attempt 1. -/
theorem C7_counterexample :
    ¬ ∃ base cap : Nat, 0 < base ∧ base * 2 ≤ cap ∧
        ∀ k, k < MAX_RECONNECT_V2 →
          (connectionCloseV2 k (some 428)).delayMs = some (min (base * 2 ^ k) cap) := by
  rintro ⟨base, cap, hb, hc, h⟩
  have h0 := h 0 (by decide)
  have h1 := h 1 (by decide)
  have e0 : connectionCloseV2 0 (some 428) = ⟨1, some 3000, false⟩ := by decide
  have e1 : connectionCloseV2 1 (some 428) = ⟨2, some 3000, false⟩ := by decide
  rw [e0] at h0
  rw [e1] at h1
  simp [pow_succ] at h0 h1
  omega

/-- C7 amended: the v2 close handler schedules every reconnect after the
same constant 3000 ms delay (no exponential growth and no cap), increments
the attempt counter on each scheduled reconnect, schedules nothing once
the counter reaches MAX_RECONNECT = 5, and the open handler resets the
counter to 0; the part_003 close handler schedules a constant 5000 ms with
no counter at all. -/
theorem C7_amended_constant_delay :
    (∀ k sc, sc ≠ some loggedOutCode → k < MAX_RECONNECT_V2 →
      connectionCloseV2 k sc = ⟨k + 1, some 3000, false⟩) ∧
    (∀ k sc, sc ≠ some loggedOutCode → MAX_RECONNECT_V2 ≤ k →
      connectionCloseV2 k sc = ⟨k, none, false⟩) ∧
    connectionOpenAttempts = 0 ∧
    (∀ sc, sc ≠ some loggedOutCode → connectionCloseV31 sc = some 5000) := by
  refine ⟨?_, ?_, rfl, ?_⟩
  · intro k sc hsc hk
    unfold connectionCloseV2
    rw [if_pos ⟨hsc, hk⟩]
  · intro k sc hsc hk
    have h1 : ¬ (sc ≠ some loggedOutCode ∧ k < MAX_RECONNECT_V2) := by
      rintro ⟨_, hlt⟩
      omega
    unfold connectionCloseV2
    rw [if_neg h1, if_neg hsc]
  · intro sc hsc
    unfold connectionCloseV31
    rw [if_pos hsc]

/-- Witness for C7 amended at concrete attempts below and above the retry
bound. -/
theorem C7_witness :
    connectionCloseV2 2 (some 428) = ⟨3, some 3000, false⟩ ∧
    connectionCloseV2 7 (some 428) = ⟨7, none, false⟩ ∧
    connectionCloseV31 (some 428) = some 5000 :=
  ⟨C7_amended_constant_delay.1 2 (some 428) (by decide) (by decide),
   C7_amended_constant_delay.2.1 7 (some 428) (by decide) (by decide),
   C7_amended_constant_delay.2.2.2 (some 428) (by decide)⟩

/-- C8 counterexample: on a loggedOut disconnect the v3.0 close handler of
part_004 schedules a further startBot call after 2000 ms — a reconnect
attempt IS scheduled by the process, contradicting the claim that all
automatic retries stop. -/
theorem C8_counterexample :
    connectionCloseV30 2 (some loggedOutCode) = ⟨true, some 2000, 2⟩ ∧
    (connectionCloseV30 2 (some loggedOutCode)).scheduledDelayMs ≠ none := by decide

/-- C8 amended: on loggedOut, part_004 clears the stored credentials but
automatically schedules a restart after 2000 ms (the restart then begins
from the pairing state); the v2 handler of src/whatsapp-bot/index.js
instead exits the process — scheduling nothing further — but does NOT
clear the stored credentials, leaving re-initiation and credential removal
to the operator. -/
theorem C8_amended_loggedOut (a : Nat) :
    connectionCloseV30 a (some loggedOutCode) = ⟨true, some 2000, a⟩ ∧
    connectionCloseV2 a (some loggedOutCode) = ⟨a, none, true⟩ := by
  constructor
  · unfold connectionCloseV30
    rw [if_neg (by decide), if_pos rfl]
  · unfold connectionCloseV2
    rw [if_neg, if_pos rfl]
    rintro ⟨hne, _⟩
    exact hne rfl

/-- Witness for C8 amended at a concrete counter value. -/
theorem C8_witness :
    connectionCloseV30 0 (some loggedOutCode) = ⟨true, some 2000, 0⟩ ∧
    connectionCloseV2 0 (some loggedOutCode) = ⟨0, none, true⟩ :=
  C8_amended_loggedOut 0

/-- C9 counterexample: a message carrying an image without caption has a
payload and passes all four drop rules, yet both extraction functions
yield the empty string, and the part_003 handler silently drops the event:
no endpoint call, no reply, no placeholder. -/
theorem C9_counterexample :
    droppedByPolicy ⟨⟨false, "919876543210@s.whatsapp.net"⟩,
        some ⟨none, none, some none, none, false⟩⟩ = false ∧
    extractTextV31 ⟨none, none, some none, none, false⟩ = "" ∧
    extractTextV2 ⟨none, none, some none, none, false⟩ = "" ∧
    handleMsg ⟨⟨false, "919876543210@s.whatsapp.net"⟩,
        some ⟨none, none, some none, none, false⟩⟩ CallResult.failure
      (CallResult.response (some "r")) = ⟨0, none⟩ := by decide

/-- C9 amended: the normalized text follows the fixed precedence of the v2
extraction — direct body, else extended text, else image caption, else the
audio placeholder — but the extraction is not total: an event surviving
the four drop rules may still yield empty text (for example an image
without caption in both variants, or an audio message in part_003, whose
extraction has no audio placeholder), and such an event is silently
dropped with no endpoint call and no reply. -/
theorem C9_amended_precedence :
    (∀ m c, m.conversation = some c → c ≠ "" → extractTextV2 m = c) ∧
    (∀ m e, jsStr m.conversation = "" → m.extendedText = some e → e ≠ "" →
      extractTextV2 m = e) ∧
    (∀ m c, jsStr m.conversation = "" → jsStr m.extendedText = "" →
      m.imageMessage = some (some c) → c ≠ "" → extractTextV2 m = c) ∧
    (∀ m, jsStr m.conversation = "" → jsStr m.extendedText = "" →
      capOf m.imageMessage = "" → m.audioMessage = true →
      extractTextV2 m = "[Voice message]") ∧
    (∀ msg r1 r2, msgText msg = "" → handleMsg msg r1 r2 = ⟨0, none⟩) := by
  refine ⟨?_, ?_, ?_, ?_, ?_⟩
  · intro m c hc hne
    simp [extractTextV2, jsStr, hc, hne]
  · intro m e h1 h2 h3
    obtain ⟨conv, ext, img, vid, aud⟩ := m
    cases conv with
    | none => simp_all [extractTextV2, jsStr]
    | some c0 => simp_all [extractTextV2, jsStr]
  · intro m c h1 h2 h3 h4
    obtain ⟨conv, ext, img, vid, aud⟩ := m
    cases conv with
    | none =>
        cases ext with
        | none => simp_all [extractTextV2, jsStr, capOf, jsOr]
        | some e0 => simp_all [extractTextV2, jsStr, capOf, jsOr]
    | some c0 =>
        cases ext with
        | none => simp_all [extractTextV2, jsStr, capOf, jsOr]
        | some e0 => simp_all [extractTextV2, jsStr, capOf, jsOr]
  · intro m h1 h2 h3 h4
    obtain ⟨conv, ext, img, vid, aud⟩ := m
    cases conv with
    | none =>
        cases ext with
        | none => simp_all [extractTextV2, jsStr]
        | some e0 => simp_all [extractTextV2, jsStr]
    | some c0 =>
        cases ext with
        | none => simp_all [extractTextV2, jsStr]
        | some e0 => simp_all [extractTextV2, jsStr]
  · intro msg r1 r2 ht
    unfold handleMsg
    cases hm : msg.message with
    | none => rfl
    | some m =>
      have ht2 : extractTextV31 m = "" := by simpa [msgText, hm] using ht
      by_cases hf : msg.key.fromMe
      · simp [hf]
      · by_cases hb : msg.key.remoteJid = "status@broadcast"
        · simp [hf, hb]
        · by_cases hg : "@g.us".data <:+ msg.key.remoteJid.data
          · simp [hf, hb, hg]
          · simp [hf, hb, hg, ht2]

/-- Witness for C9 amended at concrete payloads exercising each precedence
level and the silent drop of an audio-only event in part_003. -/
theorem C9_witness :
    extractTextV2 ⟨some "hi", some "q", some (some "cap"), none, true⟩ = "hi" ∧
    extractTextV2 ⟨none, some "q", some (some "cap"), none, true⟩ = "q" ∧
    extractTextV2 ⟨none, none, some (some "cap"), none, true⟩ = "cap" ∧
    extractTextV2 ⟨none, none, some none, none, true⟩ = "[Voice message]" ∧
    handleMsg ⟨⟨false, "15551234567@s.whatsapp.net"⟩,
        some ⟨none, none, none, none, true⟩⟩ CallResult.failure CallResult.failure =
      ⟨0, none⟩ :=
  ⟨C9_amended_precedence.1 _ "hi" rfl (by decide),
   C9_amended_precedence.2.1 _ "q" rfl rfl (by decide),
   C9_amended_precedence.2.2.1 _ "cap" rfl rfl rfl (by decide),
   C9_amended_precedence.2.2.2.1 _ rfl rfl rfl rfl,
   C9_amended_precedence.2.2.2.2 _ _ _ (by decide)⟩

/-- String concatenation acts as list concatenation on the underlying
character data. -/
theorem data_append (a b : String) : (a ++ b).data = a.data ++ b.data := rfl

/-- removeSuffix is the identity on an all-digit string whenever the
suffix contains a non-digit character. -/
theorem removeSuffix_allDigits (t sfx : String)
    (hall : ∀ c ∈ t.data, c.isDigit = true) (c : Char) (hc : c ∈ sfx.data)
    (hcd : c.isDigit = false) : removeSuffix t sfx = t := by
  unfold removeSuffix
  rw [if_neg]
  intro hsuf
  exact absurd (hall c (hsuf.subset hc)) (by simp [hcd])

/-- Every defined output of extractPhone consists only of digit characters
and never has length exactly 10: a 10-digit remainder always receives the
"91" country code, giving 12 characters. -/
theorem extractPhone_out_digits (s t : String) (h : extractPhone s = some t) :
    (∀ c ∈ t.data, c.isDigit = true) ∧ t.length ≠ 10 := by
  simp only [extractPhone] at h
  by_cases hs : s = ""
  · rw [if_pos hs] at h
    simp at h
  · rw [if_neg hs, Option.some.injEq] at h
    set d := digitsOf (removeSuffix (removeSuffix s "@s.whatsapp.net") "@lid") with hdd
    have hdall : ∀ c ∈ d.data, c.isDigit = true := by
      intro c hc
      rw [hdd] at hc
      exact (List.mem_filter.mp hc).2
    by_cases h10 : d.length = 10
    · rw [if_pos h10] at h
      subst h
      constructor
      · intro c hc
        rw [data_append] at hc
        rcases List.mem_append.mp hc with hc | hc
        · have h91 : ("91" : String).data = ['9', '1'] := rfl
          rw [h91] at hc
          simp at hc
          rcases hc with rfl | rfl <;> decide
        · exact hdall c hc
      · have hlen : ("91" ++ d).length = 2 + d.length := by
          show ("91" ++ d).data.length = 2 + d.data.length
          rw [data_append, List.length_append]
          have h2 : ("91" : String).data.length = 2 := rfl
          rw [h2]
        rw [hlen]
        omega
    · rw [if_neg h10] at h
      subst h
      exact ⟨hdall, h10⟩

/-- C10 counterexample: extractPhone "abc" is the non-null empty string
(all characters are stripped), but feeding that output back in gives null,
because the empty string is falsy — so extractPhone is not idempotent on
all of its non-null outputs. -/
theorem C10_counterexample :
    extractPhone "abc" = some "" ∧ extractPhone "" = none ∧
    extractPhone "" ≠ some "" := by decide

/-- C10 amended: extractPhone is idempotent on its non-null, non-empty
outputs, and no output of extractPhone has length exactly 10, so the "91"
default country code is never applied twice. -/
theorem C10_amended_idempotent :
    (∀ s t, extractPhone s = some t → t ≠ "" → extractPhone t = some t) ∧
    (∀ s t, extractPhone s = some t → t.length ≠ 10) := by
  constructor
  · intro s t h hne
    obtain ⟨hall, hlen⟩ := extractPhone_out_digits s t h
    have hrs1 : removeSuffix t "@s.whatsapp.net" = t :=
      removeSuffix_allDigits t "@s.whatsapp.net" hall '@' (by decide) (by decide)
    have hrs2 : removeSuffix t "@lid" = t :=
      removeSuffix_allDigits t "@lid" hall '@' (by decide) (by decide)
    have hdt : digitsOf t = t := by
      unfold digitsOf
      rw [List.filter_eq_self.mpr hall]
    simp only [extractPhone]
    rw [if_neg hne, hrs1, hrs2, hdt, if_neg hlen]
  · intro s t h
    exact (extractPhone_out_digits s t h).2

/-- Witness for C10 amended: a JID with a transport suffix canonicalizes to
"919876543210"; re-canonicalizing that output leaves it unchanged, and the
output does not have 10 characters. -/
theorem C10_witness :
    extractPhone "919876543210" = some "919876543210" ∧
    ("919876543210" : String).length ≠ 10 :=
  ⟨C10_amended_idempotent.1 "9876543210@s.whatsapp.net" "919876543210"
      (by decide) (by decide),
   C10_amended_idempotent.2 "9876543210@s.whatsapp.net" "919876543210" (by decide)⟩
